import Mathlib

/-!
Verification development for the PetPsych AI request pipeline (`src/app.py`).

The embedding models, faithfully to the Python source:
  * `validate_input_data`  — the input validator (app.py lines 83-103);
  * `create_enhanced_prompt` with the species-vocabulary table
    `pet_type_insights` (app.py lines 106-183);
  * `analyze_video_content` — the size-bucketed video summarizer stub
    (app.py lines 186-203);
  * the video-processing section of the `/analyze_behavior` handler,
    including temporary-file save/remove and the base64 captured-video
    branch (app.py lines 248-294);
  * the bounded retry loop around the generation service and the outer
    error-message classification (app.py lines 302-356).

Python strings are Lean `String`s; Python dict access on the per-request
form dictionary is `PetData.get`; exceptions of the wrapped I/O calls
(file save, `os.path.getsize`, `os.remove`, `base64.b64decode`) are
modelled by boolean outcome oracles, and the generation service by a
function from attempt index to that attempt's outcome.  The filesystem
holds the set of stored upload paths as a list.  All string helpers are
written over `String.data` so every definition evaluates in the kernel.
-/

/-! ## Python string helpers -/

/-- Python `str.strip()`: drop leading and trailing whitespace. -/
def pyStrip (s : String) : String :=
  ⟨((s.data.dropWhile Char.isWhitespace).reverse.dropWhile Char.isWhitespace).reverse⟩

/-- Python `str.lower()` (ASCII range, as used by the app). -/
def pyLower (s : String) : String :=
  ⟨s.data.map Char.toLower⟩

/-- Python `str.upper()` (ASCII range, as used by the app). -/
def pyUpper (s : String) : String :=
  ⟨s.data.map Char.toUpper⟩

/-- Python `str.title()` on ASCII text: uppercase each letter that follows
a non-letter, lowercase the rest. -/
def pyTitleAux : Bool → List Char → List Char
  | _, [] => []
  | prevAlpha, c :: cs =>
    if c.isAlpha then
      (if prevAlpha then c.toLower else c.toUpper) :: pyTitleAux true cs
    else
      c :: pyTitleAux false cs

/-- Python `str.title()`. -/
def pyTitle (s : String) : String :=
  ⟨pyTitleAux false s.data⟩

/-- Python `sub in s` on lists of characters: `sub` occurs contiguously. -/
def listContainsSub (sub : List Char) : List Char → Bool
  | [] => sub.isEmpty
  | c :: tl => sub.isPrefixOf (c :: tl) || listContainsSub sub tl

/-- Python `sub in s` for strings. -/
def pyContainsSub (sub s : String) : Bool :=
  listContainsSub sub.data s.data

/-- Python `s.startswith(pre)`. -/
def pyStartsWith (pre s : String) : Bool :=
  pre.data.isPrefixOf s.data

/-- Python `c in s` for a single character. -/
def pyContainsChar (c : Char) (s : String) : Bool :=
  s.data.contains c

/-- Python `s.rsplit('.', 1)[1]`: the text after the last dot. -/
def extAfterLastDot (s : String) : String :=
  ⟨(s.data.reverse.takeWhile fun c => c ≠ '.').reverse⟩

/-- Python `captured_video.split(',', 1)[1]`: the text after the first comma. -/
def afterFirstComma (s : String) : String :=
  ⟨(s.data.dropWhile fun c => c ≠ ',').drop 1⟩

/-- Python `s[:3]`. -/
def pyTake3 (s : String) : String :=
  ⟨s.data.take 3⟩

/-! ## Upload configuration (app.py lines 66-80) -/

/-- `ALLOWED_EXTENSIONS = {'mp4', 'avi', 'mov', 'webm', 'mkv'}`. -/
def ALLOWED_EXTENSIONS : List String := ["mp4", "avi", "mov", "webm", "mkv"]

/-- `allowed_file` (app.py lines 77-80):
`'.' in filename and filename.rsplit('.', 1)[1].lower() in ALLOWED_EXTENSIONS`. -/
def allowed_file (filename : String) : Bool :=
  pyContainsChar '.' filename &&
    ALLOWED_EXTENSIONS.contains (pyLower (extAfterLastDot filename))

/-! ## The per-request record

The handler (app.py lines 230-237) builds a dict with exactly the keys
`pet_name, pet_type, pet_breed, behavior_desc, vocal_cues, context`,
each the stripped form field.  `PetData` is that dict; `PetData.get`
is Python `dict.get(key, default)` on it. -/

structure PetData where
  pet_name : String
  pet_type : String
  pet_breed : String
  behavior_desc : String
  vocal_cues : String
  context : String
deriving DecidableEq, Repr

/-- `pet_data.get(key, default)` on the handler's six-key dict.  In
particular `get "query"` always falls back to the default: the dict has
a `context` key but no `query` key. -/
def PetData.get (d : PetData) (key dflt : String) : String :=
  if key = "pet_name" then d.pet_name
  else if key = "pet_type" then d.pet_type
  else if key = "pet_breed" then d.pet_breed
  else if key = "behavior_desc" then d.behavior_desc
  else if key = "vocal_cues" then d.vocal_cues
  else if key = "context" then d.context
  else dflt

/-! ## Input validator (app.py lines 83-103) -/

/-- `valid_pet_types` (app.py line 92). -/
def valid_pet_types : List String :=
  ["dog", "cat", "bird", "rabbit", "hamster", "guinea pig", "ferret", "other"]

/-- `validate_input_data` (app.py lines 83-103).  Returns the Python pair
`(is_valid, error_message)`.  `not data.get(field) or not data[field].strip()`
is equivalent to the stripped field being empty. -/
def validate_input_data (data : PetData) : Bool × Option String :=
  if pyStrip data.pet_name = "" then (false, some "Missing required field: pet_name")
  else if pyStrip data.pet_type = "" then (false, some "Missing required field: pet_type")
  else if pyStrip data.pet_breed = "" then (false, some "Missing required field: pet_breed")
  else if valid_pet_types.contains (pyLower data.pet_type) = false then
    (false, some "Invalid pet type")
  else if 50 < data.pet_name.length then
    (false, some "Pet name too long (max 50 characters)")
  else if 2000 < data.behavior_desc.length then
    (false, some "Behavior description too long (max 2000 characters)")
  else (true, none)

/-! ## Species vocabulary table (app.py lines 109-132) -/

structure SpeciesInsight where
  behaviors : String
  emotions : String
  health_indicators : String
deriving DecidableEq, Repr

def dogInsight : SpeciesInsight :=
  { behaviors := "tail wagging patterns, ear positioning, play bows, panting, barking types"
    emotions := "excitement, anxiety, fear, dominance, submission, contentment"
    health_indicators := "gait analysis, breathing patterns, appetite changes, energy levels" }

def catInsight : SpeciesInsight :=
  { behaviors := "purring intensity, tail movements, ear positioning, kneading, vocalizations"
    emotions := "contentment, stress, territorial behavior, affection seeking, hunting instincts"
    health_indicators := "grooming habits, litter box behavior, appetite, hiding patterns" }

def birdInsight : SpeciesInsight :=
  { behaviors := "wing positioning, head movements, vocalizations, preening, perching habits"
    emotions := "excitement, stress, bonding behaviors, territorial displays"
    health_indicators := "feather condition, breathing patterns, eating habits, activity levels" }

def rabbitInsight : SpeciesInsight :=
  { behaviors := "binky movements, thumping, grooming, digging, chinning"
    emotions := "happiness, fear, territorial behavior, social bonding"
    health_indicators := "eating patterns, litter habits, mobility, alertness" }

/-- The `pet_type_insights` dict: rows exist for dog, cat, bird, rabbit only. -/
def pet_type_insights (key : String) : Option SpeciesInsight :=
  if key = "dog" then some dogInsight
  else if key = "cat" then some catInsight
  else if key = "bird" then some birdInsight
  else if key = "rabbit" then some rabbitInsight
  else none

/-- `pet_type_insights.get(pet_data['pet_type'].lower(), pet_type_insights['dog'])`
(app.py line 132). -/
def speciesInfo (pet_type : String) : SpeciesInsight :=
  (pet_type_insights (pyLower pet_type)).getD dogInsight

/-! ## Prompt builder (app.py lines 106-183) -/

/-- `create_enhanced_prompt(pet_data, video_analysis)` (app.py lines 106-183).
`now` stands for `datetime.now().strftime('%Y-%m-%d %H:%M')`.  The Python
f-string is reproduced line by line; the final `.strip()` is `pyStrip`. -/
def create_enhanced_prompt (pet_data : PetData) (video_analysis : String)
    (now : String) : String :=
  let insight := speciesInfo pet_data.pet_type
  pyStrip <|
    "\nYou are PetPsych AI, an advanced animal behavior analyst with expertise in veterinary psychology, ethology, and animal cognition. Analyze the following pet's behavioral patterns with scientific rigor and compassionate understanding.\n\n"
    ++ "🐾 SUBJECT PROFILE:\n"
    ++ "• Name: " ++ pet_data.pet_name ++ "\n"
    ++ "• Species: " ++ pyTitle pet_data.pet_type ++ "\n"
    ++ "• Breed: " ++ pet_data.pet_breed ++ "\n"
    ++ "• Analysis Date: " ++ now ++ "\n\n"
    ++ "📋 BEHAVIORAL OBSERVATIONS:\n"
    ++ "Primary Behavior: " ++ pet_data.get "behavior_desc" "Not specified" ++ "\n"
    ++ "Vocal Cues: " ++ pet_data.get "vocal_cues" "Not specified" ++ "\n"
    ++ "What user wants to know: " ++ pet_data.get "query" "Not specified" ++ "\n\n"
    ++ (if video_analysis ≠ "" then "🎥 VIDEO ANALYSIS: " ++ video_analysis else "")
    ++ "\n\n"
    ++ "🧠 ANALYSIS FRAMEWORK:\n"
    ++ "For " ++ pet_data.pet_type ++ " behavioral analysis, focus on:\n"
    ++ "• Key Behaviors: " ++ insight.behaviors ++ "\n"
    ++ "• Emotional States: " ++ insight.emotions ++ "\n"
    ++ "• Health Indicators: " ++ insight.health_indicators ++ "\n\n"
    ++ "1. 👀 What I Saw (Behavior)\n\n"
    ++ "Short list of the key behaviors (e.g., pacing near door, whining, no tail wagging).\n\n"
    ++ "Simple context (when, where).\n\n"
    ++ "2. 🧠 What It Could Mean (Possible Reasons)\n\n"
    ++ "Emotional state (happy, anxious, restless, curious).\n\n"
    ++ "Everyday needs (bathroom, food, play, comfort).\n\n"
    ++ "Possible health-related concerns (if relevant).\n\n"
    ++ "3. 💡 What You Should Try (Next Steps)\n\n"
    ++ "2–4 clear, actionable suggestions.\n\n"
    ++ "Split into: “Do Now” ✅ and “Optional/Extra” 🌟.\n\n"
    ++ "4. ⚠️ Watch Out For (Red Flags)\n\n"
    ++ "Quick bullet list of signs that mean: “Time to see a vet/behaviorist.”\n\n"
    ++ "Please provide a thorough, compassionate analysis that helps "
    ++ pet_data.pet_name
    ++ "'s human understand their behavioral patterns and strengthens their bond through better communication.\n"

/-! ## Video summarizer stub (app.py lines 186-203) -/

/-- The argument of `analyze_video_content`: Python `None`, a `str`, or a
`bytes` value (only its length matters to the stub). -/
inductive VideoData where
  | pyNone
  | str (s : String)
  | bytes (b : List Nat)
deriving DecidableEq, Repr

/-- Python truthiness of the argument: `None`, `""` and `b""` are falsy. -/
def VideoData.isFalsy : VideoData → Bool
  | .pyNone => true
  | .str s => s = ""
  | .bytes b => b.isEmpty

/-- `analyze_video_content` (app.py lines 186-203).  Note
`video_size = len(video_data) if isinstance(video_data, str) else 0`:
a non-string argument is sized 0, so any non-empty `bytes` value lands in
the smallest bucket.  The body cannot raise, so the `except` fallback
sentence is unreachable. -/
def analyze_video_content (video_data : VideoData) : String :=
  if video_data.isFalsy then ""
  else
    let video_size : Nat :=
      match video_data with
      | .str s => s.length
      | _ => 0
    if 1000000 < video_size then
      "High-quality video footage analyzed showing detailed behavioral patterns and environmental context."
    else if 100000 < video_size then
      "Video footage analyzed showing clear behavioral indicators and movement patterns."
    else
      "Brief video clip analyzed providing supplementary visual context."

/-! ## The handler's video-processing section (app.py lines 248-294)

Exceptions of the wrapped calls are modelled by a `VideoStepOracle`:
`saveOk` for `video_file.save`, `getsizeOk` for `os.path.getsize`,
`removeOk` for `os.remove` (whose `OSError` the code swallows), and
`decodeOk` for `base64.b64decode`.  The filesystem is the list of paths
present in the upload folder. -/

structure UploadedFile where
  filename : String
  size : Nat
deriving DecidableEq, Repr

structure VideoStepOracle where
  saveOk : Bool
  getsizeOk : Bool
  removeOk : Bool
  decodeOk : Bool
deriving DecidableEq, Repr

/-- `"short" if file_size < 5000000 else "medium" if file_size < 20000000 else "long"`. -/
def durationEstimate (file_size : Nat) : String :=
  if file_size < 5000000 then "short"
  else if file_size < 20000000 then "medium"
  else "long"

/-- The uploaded-file analysis sentence (app.py lines 266-267). -/
def uploadAnalysisText (file_size : Nat) : String :=
  "Uploaded video file analyzed (" ++ durationEstimate file_size ++ " duration, "
    ++ toString (file_size / 1024)
    ++ "KB). Visual behavioral patterns and environmental context extracted from footage."

/-- Fallback of the uploaded-file `except` block (app.py line 277). -/
def uploadFallback : String :=
  "Video upload encountered processing issues but analysis continues with provided descriptions."

/-- Fallback of the captured-video `except` block (app.py line 294). -/
def capturedFallback : String :=
  "Live captured video provided additional behavioral context."

/-- The `try`/`except` around the uploaded file (app.py lines 254-277):
save the file, read its size, build the sentence, then
`try: os.remove(video_path) except OSError: pass`.  An exception anywhere
in the `try` body falls to the `except`, which only replaces the analysis
text — it does not remove a file already saved. -/
def processUploadedVideo (fs : List String) (video_path : String) (file_size : Nat)
    (o : VideoStepOracle) : List String × String :=
  if o.saveOk then
    let fs1 := video_path :: fs
    if o.getsizeOk then
      (if o.removeOk then fs1.erase video_path else fs1, uploadAnalysisText file_size)
    else
      (fs1, uploadFallback)
  else
    (fs, uploadFallback)

/-- The uploaded-file step of the handler (app.py lines 252-277), guard
`video_file and video_file.filename and allowed_file(video_file.filename)`
included.  Starts from `video_analysis = ""`. -/
def uploadStep (fs : List String) (video_file : Option UploadedFile)
    (video_path : String) (o : VideoStepOracle) : List String × String :=
  match video_file with
  | some f =>
    if f.filename ≠ "" then
      if allowed_file f.filename then processUploadedVideo fs video_path f.size o
      else (fs, "")
    else (fs, "")
  | none => (fs, "")

/-- The captured-video step (app.py lines 280-294).  This is a second `if`,
not an `elif`: when it fires it overwrites whatever `video_analysis` the
upload step produced.  `split(',', 1)` with no comma raises (caught), a
failed `b64decode` raises (caught), and on success the summarizer is run
on `video_data` — the base64 *string* after the comma, not the decoded
bytes. -/
def processCapturedVideo (captured_video : String) (o : VideoStepOracle)
    (video_analysis : String) : String :=
  if captured_video ≠ "" then
    if pyStartsWith "data:video" captured_video then
      if pyContainsChar ',' captured_video then
        if o.decodeOk then
          analyze_video_content (VideoData.str (afterFirstComma captured_video))
        else capturedFallback
      else capturedFallback
    else video_analysis
  else video_analysis

/-- The whole video-processing section: upload step then captured step. -/
def videoSection (fs : List String) (video_file : Option UploadedFile)
    (video_path : String) (captured_video : String) (o : VideoStepOracle) :
    List String × String :=
  let step1 := uploadStep fs video_file video_path o
  (step1.1, processCapturedVideo captured_video o step1.2)

/-! ## Generation client with retry (app.py lines 302-317) -/

/-- One call to `model.generate_content`: it raises, or returns a response
whose `.text` is the given string (`""` for a falsy/empty text). -/
inductive AttemptResult where
  | raises (msg : String)
  | returns (text : String)
deriving DecidableEq, Repr

/-- The body of one loop iteration: a raise propagates its message; an
empty text raises `Empty response from AI model`; otherwise the attempt
succeeds with the text. -/
def attemptOutcome (service : Nat → AttemptResult) (attempt : Nat) :
    Except String String :=
  match service attempt with
  | .raises msg => .error msg
  | .returns text =>
    if text = "" then .error "Empty response from AI model" else .ok text

def genOk : Except String String → Bool
  | .ok _ => true
  | .error _ => false

/-- `max_retries = 3` (app.py line 303). -/
def max_retries : Nat := 3

/-- The message of the exception raised once retries are exhausted
(app.py line 316).  Note it replaces the underlying error. -/
def unavailableMsg : String := "AI service temporarily unavailable. Please try again."

/-- `for attempt in range(max_retries)` (app.py lines 304-317): break on the
first non-empty response; on the last attempt's failure raise the fixed
`unavailableMsg` exception. -/
def genLoop (service : Nat → AttemptResult) : List Nat → Except String String
  | [] => .error unavailableMsg
  | attempt :: rest =>
    match attemptOutcome service attempt with
    | .ok t => .ok t
    | .error _ =>
      if attempt = max_retries - 1 then .error unavailableMsg
      else genLoop service rest

/-- The retrying generation call: the loop over attempts `0, 1, 2`. -/
def generate_with_retry (service : Nat → AttemptResult) : Except String String :=
  genLoop service (List.range max_retries)

/-! ## Outer error classification and the handler (app.py lines 222-356) -/

/-- The outer `except` block's message branching (app.py lines 341-349),
applied to `str(e).lower()` of the exception the handler caught. -/
def classify_error (error_msg : String) : String :=
  let m := pyLower error_msg
  if pyContainsSub "quota" m || pyContainsSub "limit" m then
    "Service temporarily at capacity. Please try again in a few minutes."
  else if pyContainsSub "network" m || pyContainsSub "connection" m then
    "Network connectivity issue. Please check your connection and try again."
  else if pyContainsSub "invalid" m then
    "Invalid input provided. Please check your entries and try again."
  else
    "Analysis service temporarily unavailable. Please try again."

/-- A `/analyze_behavior` request: the six form fields (raw, the handler
strips them), the optional uploaded file and the `captured_video` field. -/
structure AnalyzeRequest where
  pet_name : String
  pet_type : String
  pet_breed : String
  behavior_desc : String
  vocal_cues : String
  context : String
  video_file : Option UploadedFile
  captured_video : String
deriving DecidableEq, Repr

/-- The `pet_data` dict the handler builds (app.py lines 230-237). -/
def formPetData (req : AnalyzeRequest) : PetData :=
  { pet_name := pyStrip req.pet_name
    pet_type := pyStrip req.pet_type
    pet_breed := pyStrip req.pet_breed
    behavior_desc := pyStrip req.behavior_desc
    vocal_cues := pyStrip req.vocal_cues
    context := pyStrip req.context }

/-- The handler's three response shapes with their HTTP statuses. -/
inductive AnalyzeResult where
  | badRequest (error : String)
  | okResponse (analysis : String) (pet_name : String) (pet_type : String)
      (analysis_id : String)
  | serverError (error : String)
deriving DecidableEq, Repr

def statusCode : AnalyzeResult → Nat
  | .badRequest _ => 400
  | .okResponse _ _ _ _ => 200
  | .serverError _ => 500

/-- `f"PA_{int(time.time())}_{pet_data['pet_name'][:3].upper()}"`. -/
def analysisId (timeNow : Nat) (pet_name : String) : String :=
  "PA_" ++ toString timeNow ++ "_" ++ pyUpper (pyTake3 pet_name)

/-- The `/analyze_behavior` handler (app.py lines 222-356): strip the form
fields, validate (HTTP 400 with `Invalid input: ...` on failure), run the
video section, build the prompt, run the retrying generation call, and
shape the response — HTTP 200 with the generated text, or HTTP 500 with
`classify_error` of the caught exception's message.  Returns the response
together with the final filesystem. -/
def analyze_behavior (req : AnalyzeRequest) (fs : List String)
    (o : VideoStepOracle) (service : Nat → AttemptResult)
    (video_path : String) (now : String) (timeNow : Nat) :
    AnalyzeResult × List String :=
  let pet_data := formPetData req
  let v := validate_input_data pet_data
  if v.1 = false then
    (.badRequest ("Invalid input: " ++ v.2.getD ""), fs)
  else
    let step := videoSection fs req.video_file video_path req.captured_video o
    let _prompt := create_enhanced_prompt pet_data step.2 now
    match generate_with_retry service with
    | .ok text =>
      (.okResponse text pet_data.pet_name pet_data.pet_type
        (analysisId timeNow pet_data.pet_name), step.1)
    | .error e => (.serverError (classify_error e), step.1)

/-! ## Helper lemmas on the retry loop -/

theorem attemptOutcome_congr {s1 s2 : Nat → AttemptResult} (j : Nat)
    (h : s1 j = s2 j) : attemptOutcome s1 j = attemptOutcome s2 j := by
  simp [attemptOutcome, h]

theorem generate_with_retry_cases (service : Nat → AttemptResult) :
    generate_with_retry service =
      match attemptOutcome service 0 with
      | .ok t => .ok t
      | .error _ =>
        match attemptOutcome service 1 with
        | .ok t => .ok t
        | .error _ =>
          match attemptOutcome service 2 with
          | .ok t => .ok t
          | .error _ => .error unavailableMsg := by
  have hr : List.range max_retries = [0, 1, 2] := rfl
  rw [generate_with_retry, hr]
  rcases h0 : attemptOutcome service 0 with e0 | t0 <;>
    rcases h1 : attemptOutcome service 1 with e1 | t1 <;>
      rcases h2 : attemptOutcome service 2 with e2 | t2 <;>
        simp [genLoop, h0, h1, h2, max_retries]

theorem gwr_of_all_fail (service : Nat → AttemptResult)
    (hall : ∀ i, i < max_retries → genOk (attemptOutcome service i) = false) :
    generate_with_retry service = .error unavailableMsg := by
  rw [generate_with_retry_cases service]
  rcases h0 : attemptOutcome service 0 with e0 | t0
  · rcases h1 : attemptOutcome service 1 with e1 | t1
    · rcases h2 : attemptOutcome service 2 with e2 | t2
      · simp
      · have := hall 2 (by decide); rw [h2] at this; simp [genOk] at this
    · have := hall 1 (by decide); rw [h1] at this; simp [genOk] at this
  · have := hall 0 (by decide); rw [h0] at this; simp [genOk] at this

/-! ## C1: the Generation Client's retry behaviour -/

/-- C1: For every prompt, the Generation Client makes at most 3 attempts
total against the generation service: the result is determined by the
outcomes of attempts 0, 1, 2 alone; it returns the generated text of the
first attempt whose result is non-empty without consulting any later
attempt (a success on the 2nd attempt means no 3rd call); and when all 3
attempts raise or return an empty result it fails with the
`GenerationUnavailable` message. -/
theorem generation_client_retries (service : Nat → AttemptResult) :
    ((∀ i, i < max_retries → genOk (attemptOutcome service i) = false) →
      generate_with_retry service = .error unavailableMsg)
    ∧ (∀ k t, k < max_retries →
        (∀ j, j < k → genOk (attemptOutcome service j) = false) →
        attemptOutcome service k = .ok t →
        generate_with_retry service = .ok t ∧
        (∀ service2 : Nat → AttemptResult,
          (∀ j, j ≤ k → service2 j = service j) →
          generate_with_retry service2 = .ok t))
    ∧ (∀ service3 : Nat → AttemptResult,
        (∀ j, j < max_retries → service3 j = service j) →
        generate_with_retry service3 = generate_with_retry service) := by
  refine ⟨gwr_of_all_fail service, ?_, ?_⟩
  · intro k t hk hprev hok
    have hk3 : k < 3 := hk
    interval_cases k
    · refine ⟨by rw [generate_with_retry_cases service]; simp [hok], ?_⟩
      intro s2 hs2
      have e0 : attemptOutcome s2 0 = .ok t :=
        (attemptOutcome_congr 0 (hs2 0 (by decide))).trans hok
      rw [generate_with_retry_cases s2]; simp [e0]
    · have h0 := hprev 0 (by decide)
      rcases hf0 : attemptOutcome service 0 with e0 | t0
      swap
      · rw [hf0] at h0; simp [genOk] at h0
      refine ⟨by rw [generate_with_retry_cases service]; simp [hf0, hok], ?_⟩
      intro s2 hs2
      have e0 : attemptOutcome s2 0 = .error e0 :=
        (attemptOutcome_congr 0 (hs2 0 (by decide))).trans hf0
      have e1 : attemptOutcome s2 1 = .ok t :=
        (attemptOutcome_congr 1 (hs2 1 (by decide))).trans hok
      rw [generate_with_retry_cases s2]; simp [e0, e1]
    · have h0 := hprev 0 (by decide)
      have h1 := hprev 1 (by decide)
      rcases hf0 : attemptOutcome service 0 with e0 | t0
      swap
      · rw [hf0] at h0; simp [genOk] at h0
      rcases hf1 : attemptOutcome service 1 with e1 | t1
      swap
      · rw [hf1] at h1; simp [genOk] at h1
      refine ⟨by rw [generate_with_retry_cases service]; simp [hf0, hf1, hok], ?_⟩
      intro s2 hs2
      have e0 : attemptOutcome s2 0 = .error e0 :=
        (attemptOutcome_congr 0 (hs2 0 (by decide))).trans hf0
      have e1 : attemptOutcome s2 1 = .error e1 :=
        (attemptOutcome_congr 1 (hs2 1 (by decide))).trans hf1
      have e2 : attemptOutcome s2 2 = .ok t :=
        (attemptOutcome_congr 2 (hs2 2 (by decide))).trans hok
      rw [generate_with_retry_cases s2]; simp [e0, e1, e2]
  · intro s3 hs3
    rw [generate_with_retry_cases s3, generate_with_retry_cases service,
      attemptOutcome_congr 0 (hs3 0 (by decide)),
      attemptOutcome_congr 1 (hs3 1 (by decide)),
      attemptOutcome_congr 2 (hs3 2 (by decide))]

/-- A service whose 1st attempt returns an empty result and whose later
attempts succeed. -/
def secondTryService : Nat → AttemptResult :=
  fun i => if i = 0 then .returns "" else .returns "All good."

/-- C1 witness: on `secondTryService` the client returns the 2nd attempt's
text. -/
theorem generation_client_retries_witness :
    generate_with_retry secondTryService = Except.ok "All good." :=
  ((generation_client_retries secondTryService).2.1 1 "All good." (by decide)
    (by decide) rfl).1

/-! ## C2 and C10: the input validator -/

/-- C2: validation fails exactly when a required field is empty or
whitespace-only, the pet type is not in the enumerated set compared
case-insensitively, the pet name exceeds 50 characters, or the behavior
description exceeds 2000 characters.  The validator is a pure function of
the record (no side effects). -/
theorem validator_fails_iff (d : PetData) :
    (validate_input_data d).1 = false ↔
      (pyStrip d.pet_name = "" ∨ pyStrip d.pet_type = "" ∨ pyStrip d.pet_breed = "" ∨
        pyLower d.pet_type ∉ valid_pet_types ∨
        50 < d.pet_name.length ∨ 2000 < d.behavior_desc.length) := by
  unfold validate_input_data
  split_ifs with h1 h2 h3 h4 h5 h6 <;> simp_all

/-- C2 sanity witness: an out-of-set species fails validation. -/
theorem validator_fails_iff_witness :
    (validate_input_data ⟨"Rex", "lizard", "Bulldog", "", "", ""⟩).1 = false :=
  (validator_fails_iff ⟨"Rex", "lizard", "Bulldog", "", "", ""⟩).mpr
    (Or.inr (Or.inr (Or.inr (Or.inl (by decide)))))

/-- The six validation checks in the order the claim states them. -/
def claimedChecks (d : PetData) : List (Bool × String) :=
  [ (decide (pyStrip d.pet_name = ""), "Missing required field: pet_name"),
    (decide (pyStrip d.pet_type = ""), "Missing required field: pet_type"),
    (decide (pyStrip d.pet_breed = ""), "Missing required field: pet_breed"),
    (!valid_pet_types.contains (pyLower d.pet_type), "Invalid pet type"),
    (decide (50 < d.pet_name.length), "Pet name too long (max 50 characters)"),
    (decide (2000 < d.behavior_desc.length),
      "Behavior description too long (max 2000 characters)") ]

/-- The message of the first failing check, in the claim's stated order. -/
def firstFailingMessage (d : PetData) : Option String :=
  ((claimedChecks d).find? fun c => c.1).map fun c => c.2

/-- C10: on a record violating several rules at once the validator reports
the message of the first failing check in the fixed order missing
pet_name, missing pet_type, missing pet_breed, invalid pet type, name too
long, behavior description too long; in particular an empty pet_name
together with an invalid pet_type yields the missing-pet_name message. -/
theorem validator_reports_first_failure :
    (∀ d : PetData, (validate_input_data d).2 = firstFailingMessage d) ∧
    (validate_input_data ⟨"", "lizard", "Bulldog", "", "", ""⟩).2
      = some "Missing required field: pet_name" := by
  refine ⟨?_, rfl⟩
  intro d
  unfold validate_input_data firstFailingMessage claimedChecks
  split_ifs with h1 h2 h3 h4 h5 h6 <;>
    simp_all [List.find?, decide_eq_false, Nat.not_lt]

/-! ## C8: species-vocabulary lookup -/

/-- The species that have a row in `pet_type_insights`. -/
def tabledSpecies : List String := ["dog", "cat", "bird", "rabbit"]

/-- C8: for every valid species without a table row (hamster, guinea pig,
ferret, other, and any other string whose lowercase form is not dog, cat,
bird or rabbit) the Prompt Builder uses the `dog` vocabulary triple, and
the lookup is case-insensitive: species values with the same lowercase
form select the same triple. -/
theorem species_vocabulary_fallback :
    (∀ s : String, pyLower s ∉ tabledSpecies → speciesInfo s = dogInsight)
    ∧ (∀ s t : String, pyLower s = pyLower t → speciesInfo s = speciesInfo t)
    ∧ (speciesInfo "hamster" = dogInsight ∧ speciesInfo "guinea pig" = dogInsight
        ∧ speciesInfo "ferret" = dogInsight ∧ speciesInfo "other" = dogInsight) := by
  refine ⟨?_, ?_, rfl, rfl, rfl, rfl⟩
  · intro s hs
    unfold speciesInfo pet_type_insights
    split_ifs with h1 h2 h3 h4
    · exact absurd (by simp [tabledSpecies, h1]) hs
    · exact absurd (by simp [tabledSpecies, h2]) hs
    · exact absurd (by simp [tabledSpecies, h3]) hs
    · exact absurd (by simp [tabledSpecies, h4]) hs
    · rfl
  · intro s t h
    unfold speciesInfo
    rw [h]

/-- C8 witness: `HamStER` has no table row (case-insensitively) and falls
back to the dog entry. -/
theorem species_vocabulary_fallback_witness :
    speciesInfo "HamStER" = dogInsight :=
  species_vocabulary_fallback.1 "HamStER" (by decide)


/-! ## C3: the video summarizer stub -/

/-- C3 counterexample: a raw-bytes input of length 1,500,000 — within the
claim's stated input domain and above the 1,000,000 threshold — yields the
brief-clip sentence, not the high-quality sentence: the stub sizes every
non-string input as 0. -/
theorem video_bytes_ignore_length :
    (List.replicate 1500000 (0 : Nat)).length = 1500000
    ∧ analyze_video_content (VideoData.bytes (List.replicate 1500000 (0 : Nat)))
        = "Brief video clip analyzed providing supplementary visual context."
    ∧ "Brief video clip analyzed providing supplementary visual context."
        ≠ "High-quality video footage analyzed showing detailed behavioral patterns and environmental context." := by
  refine ⟨List.length_replicate .., rfl, by decide⟩

/-- C3 amended: empty input (`None`, `""` or `b""`) yields `""`; a *string*
input is bucketed solely by its length (over 1,000,000 the high-quality
sentence, over 100,000 the clear-indicators sentence, otherwise the
brief-clip sentence); any non-empty non-string (bytes) input is sized 0
and always yields the brief-clip sentence. -/
theorem video_summarizer_buckets :
    (analyze_video_content VideoData.pyNone = ""
      ∧ analyze_video_content (VideoData.str "") = ""
      ∧ ∀ b : List Nat, b ≠ [] →
          analyze_video_content (VideoData.bytes b)
            = "Brief video clip analyzed providing supplementary visual context.")
    ∧ (∀ s : String, s ≠ "" →
        analyze_video_content (VideoData.str s) =
          if 1000000 < s.length then
            "High-quality video footage analyzed showing detailed behavioral patterns and environmental context."
          else if 100000 < s.length then
            "Video footage analyzed showing clear behavioral indicators and movement patterns."
          else
            "Brief video clip analyzed providing supplementary visual context.") := by
  refine ⟨⟨rfl, rfl, ?_⟩, ?_⟩
  · intro b hb
    simp [analyze_video_content, VideoData.isFalsy, hb]
  · intro s hs
    simp [analyze_video_content, VideoData.isFalsy, hs]

/-- C3 witness: concrete instances — a 500,000-character string payload
falls in the clear-indicators bucket and a 50,000-character one in the
brief-clip bucket. -/
theorem video_summarizer_buckets_witness :
    analyze_video_content (VideoData.str ⟨List.replicate 500000 'a'⟩)
        = "Video footage analyzed showing clear behavioral indicators and movement patterns."
    ∧ analyze_video_content (VideoData.str ⟨List.replicate 50000 'a'⟩)
        = "Brief video clip analyzed providing supplementary visual context." := by
  have hne : ∀ n : Nat, n ≠ 0 → (⟨List.replicate n 'a'⟩ : String) ≠ "" := by
    intro n hn h
    have h2 := congrArg List.length (congrArg String.data h)
    rw [List.length_replicate] at h2
    exact hn h2
  have hlen : ∀ n : Nat, (⟨List.replicate n 'a'⟩ : String).length = n := by
    intro n
    show (List.replicate n 'a').length = n
    exact List.length_replicate ..
  constructor
  · rw [video_summarizer_buckets.2 ⟨List.replicate 500000 'a'⟩ (hne 500000 (by decide))]
    rw [hlen]
    rfl
  · rw [video_summarizer_buckets.2 ⟨List.replicate 50000 'a'⟩ (hne 50000 (by decide))]
    rw [hlen]
    rfl

/-! ## C6: the prompt builder and the user's query -/

set_option maxRecDepth 100000 in
/-- C6 (documents the code slip): the prompt never interpolates the user's
query.  The handler stores the form's `context` field under the dict key
`context`, but the prompt template reads `pet_data.get('query', 'Not
specified')`, a key the dict never has — so the prompt is independent of
the record's context field, and at a concrete record with a non-empty
context the rendered prompt contains the literal
`What user wants to know: Not specified` and not the submitted text. -/
theorem prompt_ignores_user_query :
    (∀ (d : PetData) (c1 c2 video_analysis now : String),
      create_enhanced_prompt { d with context := c1 } video_analysis now
        = create_enhanced_prompt { d with context := c2 } video_analysis now)
    ∧ pyContainsSub "What user wants to know: Not specified"
        (create_enhanced_prompt
          ⟨"Rex", "dog", "Labrador", "pacing at night", "whining", "Should I be worried"⟩
          "" "2025-01-01 00:00") = true
    ∧ pyContainsSub "Should I be worried"
        (create_enhanced_prompt
          ⟨"Rex", "dog", "Labrador", "pacing at night", "whining", "Should I be worried"⟩
          "" "2025-01-01 00:00") = false := by
  refine ⟨?_, by decide, by decide⟩
  intro d c1 c2 video_analysis now
  rfl

/-! ## Concrete request fixtures -/

/-- A valid record (name `Rex`, species `dog`, breed `Lab`), no video. -/
def rexRequest : AnalyzeRequest :=
  { pet_name := "Rex", pet_type := "dog", pet_breed := "Lab", behavior_desc := ""
    vocal_cues := "", context := "", video_file := none, captured_video := "" }

/-- A service that answers every attempt with a non-empty text. -/
def okService : Nat → AttemptResult := fun _ => .returns "Rex seems happy."

/-- A service that raises a quota/limit error on every attempt. -/
def quotaService : Nat → AttemptResult :=
  fun _ => .raises "Quota exceeded: rate limit reached"

/-- The oracle on which no wrapped call raises. -/
def allOkOracle : VideoStepOracle := ⟨true, true, true, true⟩

/-- `rexRequest` carrying both a valid upload and a base64 payload. -/
def bothVideosRequest : AnalyzeRequest :=
  { rexRequest with
    video_file := some ⟨"clip.mp4", 1000⟩
    captured_video := "data:video/webm;base64,AAAA" }

/-! ## C4: temporary-file cleanup -/

/-- C4 counterexample: a valid `.mp4` upload whose `os.path.getsize` call
raises after the file was saved.  The `except` block only replaces the
analysis text — there is no `finally` — so the temporary video file is
still on disk after the (successful, HTTP 200) response is returned. -/
theorem temp_file_survives_exception :
    (analyze_behavior { rexRequest with video_file := some ⟨"clip.mp4", 1000⟩ } []
        ⟨true, false, true, true⟩ okService "static/uploads/video_1_clip.mp4"
        "2025-01-01 00:00" 1).2
      = ["static/uploads/video_1_clip.mp4"]
    ∧ statusCode (analyze_behavior { rexRequest with video_file := some ⟨"clip.mp4", 1000⟩ } []
        ⟨true, false, true, true⟩ okService "static/uploads/video_1_clip.mp4"
        "2025-01-01 00:00" 1).1 = 200 :=
  ⟨rfl, rfl⟩

theorem processUploadedVideo_fs (fs : List String) (video_path : String)
    (file_size : Nat) (o : VideoStepOracle) (hfs : video_path ∉ fs)
    (hok : o.saveOk = true → o.getsizeOk = true ∧ o.removeOk = true) :
    video_path ∉ (processUploadedVideo fs video_path file_size o).1 := by
  unfold processUploadedVideo
  by_cases hs : o.saveOk = true
  · rcases hok hs with ⟨hg, hr⟩
    simp [hs, hg, hr, List.erase_cons_head]
    exact hfs
  · simp [hs]
    exact hfs

theorem uploadStep_fs (fs : List String) (video_file : Option UploadedFile)
    (video_path : String) (o : VideoStepOracle) (hfs : video_path ∉ fs)
    (hok : o.saveOk = true → o.getsizeOk = true ∧ o.removeOk = true) :
    video_path ∉ (uploadStep fs video_file video_path o).1 := by
  cases video_file with
  | none => exact hfs
  | some f =>
    simp only [uploadStep]
    split_ifs with h1 h2
    · exact processUploadedVideo_fs fs video_path f.size o hfs hok
    · exact hfs
    · exact hfs

/-- C4 amended: the temporary file is gone after the handler returns
*provided* the video-processing step raises no exception after the save
and the `os.remove` call itself succeeds (and trivially when the save
itself failed).  When an exception strikes between save and remove, or
remove fails with an `OSError`, the file is left on disk (see the
counterexample). -/
theorem temp_file_cleanup_on_success (req : AnalyzeRequest) (fs : List String)
    (o : VideoStepOracle) (service : Nat → AttemptResult)
    (video_path now : String) (timeNow : Nat)
    (hfs : video_path ∉ fs)
    (hok : o.saveOk = true → o.getsizeOk = true ∧ o.removeOk = true) :
    video_path ∉ (analyze_behavior req fs o service video_path now timeNow).2 := by
  have hsec : video_path ∉
      (videoSection fs req.video_file video_path req.captured_video o).1 :=
    uploadStep_fs fs req.video_file video_path o hfs hok
  simp only [analyze_behavior]
  split
  · exact hfs
  · split
    · exact hsec
    · exact hsec

/-- C4 witness: with every wrapped call succeeding, the saved temporary
file is removed before the handler returns. -/
theorem temp_file_cleanup_on_success_witness :
    "static/uploads/video_2_clip.mp4" ∉
      (analyze_behavior { rexRequest with video_file := some ⟨"clip.mp4", 1000⟩ } []
        allOkOracle okService "static/uploads/video_2_clip.mp4"
        "2025-01-01 00:00" 2).2 :=
  temp_file_cleanup_on_success _ _ _ _ _ _ _ (by decide) (fun _ => ⟨rfl, rfl⟩)

/-! ## C5: upload vs captured-video precedence -/

/-- C5 counterexample: a request carrying both a valid `.mp4` upload and a
base64 `captured_video` payload.  The captured block is a second `if`,
not an `elif`, so it runs anyway and overwrites the upload-derived
summary: the summary handed on is the one computed from the base64
string, not the uploaded file's. -/
theorem capture_overrides_upload :
    (videoSection [] (some ⟨"clip.mp4", 1000⟩) "p" "data:video/webm;base64,AAAA"
        allOkOracle).2
      = "Brief video clip analyzed providing supplementary visual context."
    ∧ (videoSection [] (some ⟨"clip.mp4", 1000⟩) "p" "" allOkOracle).2
      = "Uploaded video file analyzed (short duration, 0KB). Visual behavioral patterns and environmental context extracted from footage."
    ∧ ("Brief video clip analyzed providing supplementary visual context." : String)
      ≠ "Uploaded video file analyzed (short duration, 0KB). Visual behavioral patterns and environmental context extracted from footage." :=
  ⟨rfl, rfl, by decide⟩

/-- C5 amended: the captured-video branch runs whenever a `data:video`
payload containing a comma is present and decodes — regardless of any
uploaded file — and the Video Summarizer is run on the base64 *string*
after the comma (not the decoded bytes), overwriting the upload summary;
only when no captured payload is present does the upload-derived summary
reach the Prompt Builder. -/
theorem capture_branch_behaviour :
    (∀ (fs : List String) (video_file : Option UploadedFile)
        (video_path captured : String) (o : VideoStepOracle),
      pyStartsWith "data:video" captured = true →
      pyContainsChar ',' captured = true →
      o.decodeOk = true →
      (videoSection fs video_file video_path captured o).2
        = analyze_video_content (VideoData.str (afterFirstComma captured)))
    ∧ (∀ (fs : List String) (video_file : Option UploadedFile)
        (video_path : String) (o : VideoStepOracle),
      (videoSection fs video_file video_path "" o).2
        = (uploadStep fs video_file video_path o).2) := by
  constructor
  · intro fs vf vp captured o hpre hcomma hdec
    have hne : captured ≠ "" := by
      intro h
      rw [h] at hpre
      exact absurd hpre (by decide)
    unfold videoSection processCapturedVideo
    simp [hne, hpre, hcomma, hdec]
  · intro fs vf vp o
    rfl

/-- C5 witness: with an upload present and a decodable payload, the
summary is the Summarizer applied to the text after the comma. -/
theorem capture_branch_behaviour_witness :
    (videoSection [] (some ⟨"pup.mp4", 5⟩) "q" "data:video/mp4;base64,BBBB"
        allOkOracle).2
      = analyze_video_content (VideoData.str "BBBB") :=
  (capture_branch_behaviour.1 [] (some ⟨"pup.mp4", 5⟩) "q"
    "data:video/mp4;base64,BBBB" allOkOracle rfl rfl rfl).trans rfl

/-! ## C9: video failures never fail the request -/

/-- C9: for every request that passes validation, the response status is
decided by the generation outcome alone — 200 on success, 500 only when
generation exhausts its retries — whatever the video inputs and whatever
combination of save/getsize/remove/decode failures the oracle injects:
every video-processing failure is caught locally and replaced with a
fallback string, and the request still reaches prompt building and
generation. -/
theorem video_failures_never_block (req : AnalyzeRequest) (fs : List String)
    (o : VideoStepOracle) (service : Nat → AttemptResult)
    (video_path now : String) (timeNow : Nat)
    (hval : (validate_input_data (formPetData req)).1 = true) :
    statusCode (analyze_behavior req fs o service video_path now timeNow).1
      = (match generate_with_retry service with
          | .ok _ => 200
          | .error _ => 500) := by
  have hv : ¬ ((validate_input_data (formPetData req)).1 = false) := by
    simp [hval]
  rcases hgen : generate_with_retry service with e | t <;>
    simp [analyze_behavior, hv, hgen, statusCode]

/-- C9 witness: a request with both video inputs and every wrapped call
failing still returns HTTP 200 when generation succeeds. -/
theorem video_failures_never_block_witness :
    statusCode (analyze_behavior bothVideosRequest [] ⟨false, false, false, false⟩
      okService "p" "2025-01-01 00:00" 0).1 = 200 :=
  (video_failures_never_block bothVideosRequest [] ⟨false, false, false, false⟩
    okService "p" "2025-01-01 00:00" 0 (by decide)).trans rfl

/-! ## C7: error-message branching on exhausted retries -/

/-- The fixed retry-exhausted message matches none of the classifier's
keyword branches. -/
theorem classify_unavailable :
    classify_error unavailableMsg
      = "Analysis service temporarily unavailable. Please try again." := by
  decide

/-- C7 counterexample: a service failing every attempt with an error
mentioning `quota` and `limit`.  The handler still answers with the
generic unavailable message — the retry loop replaced the underlying
error with the fixed `AI service temporarily unavailable` exception
before the branching ran — although the classifier itself would have
produced the capacity message had that error text reached it. -/
theorem quota_error_not_reported :
    (analyze_behavior rexRequest [] allOkOracle quotaService "p"
        "2025-01-01 00:00" 3).1
      = AnalyzeResult.serverError
          "Analysis service temporarily unavailable. Please try again."
    ∧ classify_error "Quota exceeded: rate limit reached"
      = "Service temporarily at capacity. Please try again in a few minutes."
    ∧ ("Analysis service temporarily unavailable. Please try again." : String)
      ≠ "Service temporarily at capacity. Please try again in a few minutes." :=
  ⟨rfl, by decide, by decide⟩

/-- C7 amended: for every request whose generation call exhausts its
retries, the handler responds HTTP 500 but always with the generic
unavailable message, whatever the underlying service errors said: the
retry loop discards the underlying error and raises the fixed
`AI service temporarily unavailable. Please try again.` exception, whose
text matches none of the quota/limit, network/connection or invalid
keyword branches of the handler's classifier. -/
theorem exhausted_retries_generic_message (req : AnalyzeRequest) (fs : List String)
    (o : VideoStepOracle) (service : Nat → AttemptResult)
    (video_path now : String) (timeNow : Nat)
    (hval : (validate_input_data (formPetData req)).1 = true)
    (hfail : ∀ i, i < max_retries → genOk (attemptOutcome service i) = false) :
    (analyze_behavior req fs o service video_path now timeNow).1
      = AnalyzeResult.serverError
          "Analysis service temporarily unavailable. Please try again."
    ∧ statusCode (analyze_behavior req fs o service video_path now timeNow).1
      = 500 := by
  have hgen := gwr_of_all_fail service hfail
  have hv : ¬ ((validate_input_data (formPetData req)).1 = false) := by
    simp [hval]
  have h1 : (analyze_behavior req fs o service video_path now timeNow).1
      = AnalyzeResult.serverError
          "Analysis service temporarily unavailable. Please try again." := by
    simp [analyze_behavior, hv, hgen, classify_unavailable]
  exact ⟨h1, by rw [h1]; rfl⟩

/-- C7 witness: the amended statement at the concrete quota-failing
service. -/
theorem exhausted_retries_generic_message_witness :
    (analyze_behavior rexRequest [] allOkOracle quotaService "q"
        "2025-01-01 00:00" 4).1
      = AnalyzeResult.serverError
          "Analysis service temporarily unavailable. Please try again." :=
  (exhausted_retries_generic_message rexRequest [] allOkOracle quotaService "q"
    "2025-01-01 00:00" 4 (by decide) (by decide)).1
